import Mathlib

/-!
Shallow embedding of the procedural museum layout engine
(`src/procedural/MuseumLayout.js` — provided as `src/unnamed/part_003` —
together with `SceneManager` from `src/app.js`, `RoomGenerator.js`,
`HallwayGenerator.js` and `ArchitecturalStyles.js`).

Modelling conventions:
* JS numbers that only ever hold exact decimal values (positions, sizes,
  spacings, thresholds) are embedded as `ℚ`.
* `THREE.Vector3.distanceTo` computes a real square root; every use in the
  source compares a distance against a non-negative constant or against
  another distance, so the embedding compares squared distances
  (`sqrt` is strictly monotone on non-negatives, so the comparisons agree).
* `Math.round` in JS is `x ↦ ⌊x + 1/2⌋`, which is exactly Mathlib's `round`
  on `ℚ`.
* The player yaw enters the code only through
  `applyAxisAngle((0,1,0), rotation.y)`; the embedding passes the cosine and
  sine of the yaw as explicit rational parameters.
* `Math.random()`-driven template selection is passed in as an explicit
  choice parameter, and the image list returned by the asynchronous
  image-source collaborator is passed in as an explicit list, following the
  external-collaborator boundary of the design.
-/

namespace Museum

/-- 3D vector with rational coordinates, embedding `THREE.Vector3`. -/
structure Vec3 where
  x : ℚ
  y : ℚ
  z : ℚ
deriving DecidableEq, Repr

/-- Squared Euclidean distance. The source's `a.distanceTo(b)` is
`Real.sqrt (distSq a b)`; all comparisons in the source are embedded via
squared distances. -/
def distSq (a b : Vec3) : ℚ :=
  (b.x - a.x) ^ 2 + (b.y - a.y) ^ 2 + (b.z - a.z) ^ 2

/-- A quantized occupancy-grid cell. The source uses the string
`"x,y,z"` of the three rounded coordinates; distinct integer triples give
distinct strings, so the triple itself is the key. -/
abbrev GridKey := ℤ × ℤ × ℤ

/-- `MuseumLayout.addToGrid` key computation:
`Math.round(x),Math.round(y),Math.round(z)`. -/
def gridKeyOf (p : Vec3) : GridKey :=
  (round p.x, round p.y, round p.z)

/-- Rotation of a vector about the +Y axis, embedding
`THREE.Vector3.applyAxisAngle(new THREE.Vector3(0,1,0), θ)`.
`c` and `s` stand for `cos θ` and `sin θ`. -/
def rotateY (c s : ℚ) (v : Vec3) : Vec3 :=
  ⟨v.x * c + v.z * s, v.y, -v.x * s + v.z * c⟩

/-!  ## Architectural styles (`ArchitecturalStyles.js`)

Only the `name` field of a style configuration is ever consulted by the
claims under verification (the transition hallway stores
`startStyleConfig.name` / `endStyleConfig.name`); the colour, material,
texture and lighting fields influence only rendered appearance and are not
modelled. -/

/-- A named style preset (colour/material payload omitted, see above). -/
structure StyleConfig where
  name : String
deriving DecidableEq, Repr

def classicalStyle : StyleConfig := ⟨"classical"⟩
def futuristicStyle : StyleConfig := ⟨"futuristic"⟩
def abstractStyle : StyleConfig := ⟨"abstract"⟩

/-- `ArchitecturalStyles.getStyle`: the three built-in styles, any unknown
name falls back to `classical` (with a console warning in the source). -/
def getStyle (styleName : String) : StyleConfig :=
  if styleName = "classical" then classicalStyle
  else if styleName = "futuristic" then futuristicStyle
  else if styleName = "abstract" then abstractStyle
  else classicalStyle

/-!  ## Regions (`MuseumLayout` constructor and `getRegionForPosition`) -/

/-- A themed museum region, from the `regions` array in the
`MuseumLayout` constructor. -/
structure Region where
  name : String
  style : String
  center : Vec3
  radius : ℚ
  roomTypes : List String
  artThemes : List String
deriving DecidableEq, Repr

def classicalGallery : Region :=
  { name := "Classical Gallery"
  , style := "classical"
  , center := ⟨0, 0, 0⟩
  , radius := 50
  , roomTypes := ["basic", "large", "hall"]
  , artThemes := ["renaissance", "classical", "historical"] }

def futuristicExhibition : Region :=
  { name := "Futuristic Exhibition"
  , style := "futuristic"
  , center := ⟨100, 0, 0⟩
  , radius := 50
  , roomTypes := ["basic", "corner", "large"]
  , artThemes := ["modern", "technological", "abstract"] }

def abstractCollection : Region :=
  { name := "Abstract Collection"
  , style := "abstract"
  , center := ⟨0, 0, 100⟩
  , radius := 50
  , roomTypes := ["corner", "hall", "basic"]
  , artThemes := ["surreal", "contemporary", "experimental"] }

/-- The static region list of the `MuseumLayout` constructor, in source
order. -/
def museumRegions : List Region :=
  [classicalGallery, futuristicExhibition, abstractCollection]

/-- Accumulator loop of `MuseumLayout.getRegionForPosition`: starting from
`regions[0]`, each later region replaces the best candidate exactly when it
is strictly closer. -/
def regionScan (p : Vec3) (best : Region) : List Region → Region
  | [] => best
  | r :: rest =>
      if distSq p r.center < distSq p best.center then regionScan p r rest
      else regionScan p best rest

/-- `MuseumLayout.getRegionForPosition`: linear scan over the static region
list; a pure total function of the position. -/
def getRegionForPosition (p : Vec3) : Region :=
  regionScan p classicalGallery [futuristicExhibition, abstractCollection]

/-!  ## Room generation (`RoomGenerator.js`)

The geometric meshes (floor, ceiling, wall planes, columns, alcove backs)
only carry rendered appearance; what the layout engine consumes from a
generated room is its `userData`: the wall-reference set, the size, the
alcove list and the computed `artworkPlacements`.  Those are what the
embedding keeps.  Euler rotations in the source are always
`(0, k·π/2, 0)`; the embedding stores the Y angle as a rational multiple
of π (field `rotY`, so `1/2` stands for `Math.PI / 2`). -/

/-- Room dimensions (`width`/`height`/`depth`). -/
structure Size3 where
  width : ℚ
  height : ℚ
  depth : ℚ
deriving DecidableEq, Repr

/-- An artwork placement point (anchor): entries of
`room.userData.artworkPlacements`.  `rotY` is the Euler Y angle as a
multiple of π; `wall` is the owning wall tag (`'back'`/`'left'`/`'right'`
for tiled wall anchors, absent on alcove anchors). -/
structure Placement where
  position : Vec3
  rotY : ℚ
  width : ℚ
  height : ℚ
  wall : Option String
deriving DecidableEq, Repr

/-- The `userData` payload a room template constructs before
`generateRoom` adds its metadata: which named wall references exist, the
stored size, and the alcove list. -/
structure RoomShell where
  size : Size3
  hasFront : Bool
  hasBack : Bool
  hasLeft : Bool
  hasRight : Bool
  hasDiagonal : Bool
  alcoves : List Placement
deriving DecidableEq, Repr

/-- `RoomGenerator.createBasicRoom`: four walls (front split around a door
gap), floor, ceiling; default size 10×5×10; no alcoves. -/
def createBasicRoom (customSize : Option Size3) : RoomShell :=
  { size := customSize.getD ⟨10, 5, 10⟩
  , hasFront := true, hasBack := true, hasLeft := true, hasRight := true
  , hasDiagonal := false
  , alcoves := [] }

/-- `RoomGenerator.createLargeRoom`: a basic room at default size 20×8×20
plus four interior columns (columns are decorative meshes and add no wall
reference or anchor). -/
def createLargeRoom (customSize : Option Size3) : RoomShell :=
  createBasicRoom (some (customSize.getD ⟨20, 8, 20⟩))

/-- One alcove record of `RoomGenerator.createHallRoom`.  `left` selects the
left-wall loop (x = −width/2 − alcoveDepth + 0.1, rotY = −π/2) versus the
right-wall loop (x = width/2 + alcoveDepth − 0.1, rotY = π/2); the alcove
record stores no `wall` tag. -/
def hallAlcove (size : Size3) (left : Bool) (i : ℕ) : Placement :=
  { position :=
      ⟨ if left then -size.width / 2 - 1 + 1/10 else size.width / 2 + 1 - 1/10
      , 3 / 2 + 1
      , -size.depth / 2 + ((i : ℚ) + 1) * 5 ⟩
  , rotY := if left then -(1/2) else 1/2
  , width := 3
  , height := 3
  , wall := none }

/-- `RoomGenerator.createHallRoom`: a basic room at default size 8×5×20,
plus `Math.floor(depth / 5) - 1` alcoves along each of the two side walls
(alcove 3×1×3, spacing 5, raised 1 unit). -/
def createHallRoom (customSize : Option Size3) : RoomShell :=
  let size := customSize.getD ⟨8, 5, 20⟩
  let base := createBasicRoom (some size)
  let numAlcovesPerWall : ℕ := (⌊size.depth / 5⌋ - 1).toNat
  { base with
    alcoves :=
      (List.range numAlcovesPerWall).map (hallAlcove size true) ++
      (List.range numAlcovesPerWall).map (hallAlcove size false) }

/-- `RoomGenerator.createCornerRoom`: default size 12×5×12; full back and
right walls, partial left and front walls, one diagonal wall, no door gap
and no alcoves.  All five wall references are stored in `userData.walls`. -/
def createCornerRoom (customSize : Option Size3) : RoomShell :=
  { size := customSize.getD ⟨12, 5, 12⟩
  , hasFront := true, hasBack := true, hasLeft := true, hasRight := true
  , hasDiagonal := true
  , alcoves := [] }

/-- Artwork footprint width used by `setupArtworkWalls` (2 units) plus the
0.5-unit spacing: each tiled anchor advances by 2.5 units. -/
def anchorPitch : ℚ := 2 + 1/2

/-- Number of anchors tiled along a wall of the given length:
`Math.floor(wallLength / (artworkWidth + artworkSpacing))`. -/
def wallTileCount (wallLength : ℚ) : ℕ :=
  (⌊wallLength / anchorPitch⌋).toNat

/-- The centring offset `-(numPlacements - 1) * (width + spacing) / 2`. -/
def tileStart (n : ℕ) : ℚ :=
  -((n : ℚ) - 1) * anchorPitch / 2

/-- Back-wall anchors of `RoomGenerator.setupArtworkWalls`: tiled across
the room width at eye height 1.7, just inside the back wall. -/
def backWallTiles (size : Size3) : List Placement :=
  let n := wallTileCount size.width
  (List.range n).map fun (i : ℕ) =>
    { position := ⟨tileStart n + (i : ℚ) * anchorPitch, 17/10, -size.depth / 2 + 1/10⟩
    , rotY := 0
    , width := 2, height := 3/2
    , wall := some "back" }

/-- Left-wall anchors of `setupArtworkWalls`: tiled across the room depth. -/
def leftWallTiles (size : Size3) : List Placement :=
  let n := wallTileCount size.depth
  (List.range n).map fun (i : ℕ) =>
    { position := ⟨-size.width / 2 + 1/10, 17/10, tileStart n + (i : ℚ) * anchorPitch⟩
    , rotY := 1/2
    , width := 2, height := 3/2
    , wall := some "left" }

/-- Right-wall anchors of `setupArtworkWalls`: tiled across the room depth. -/
def rightWallTiles (size : Size3) : List Placement :=
  let n := wallTileCount size.depth
  (List.range n).map fun (i : ℕ) =>
    { position := ⟨size.width / 2 - 1/10, 17/10, tileStart n + (i : ℚ) * anchorPitch⟩
    , rotY := -(1/2)
    , width := 2, height := 3/2
    , wall := some "right" }

/-- `RoomGenerator.setupArtworkWalls`: tiles the back, left and right wall
references (when present), then appends any alcove placements.  The front
and diagonal wall references are never tiled. -/
def setupArtworkWalls (shell : RoomShell) : List Placement :=
  (if shell.hasBack then backWallTiles shell.size else []) ++
  (if shell.hasLeft then leftWallTiles shell.size else []) ++
  (if shell.hasRight then rightWallTiles shell.size else []) ++
  shell.alcoves

/-- A fully generated room: the shell's `userData` plus the metadata and
anchors `RoomGenerator.generateRoom` attaches, and the world position the
scene manager copies onto it (`id` embeds the numeric part of
`room_<counter>`; the `created` timestamp is wall-clock noise and is not
modelled). -/
structure Room where
  id : ℕ
  template : String
  style : String
  shell : RoomShell
  artworkPlacements : List Placement
  position : Vec3
deriving DecidableEq, Repr

/-- `RoomGenerator.generateRoom`: select the template function (unknown
template falls back to `basic`), build the shell, merge the metadata while
preserving the shell's `userData` (the source spreads `...room.userData`),
then compute the artwork anchors via `setupArtworkWalls`.  The style only
selects colours/materials and does not influence the shell layout. -/
def generateRoom (counter : ℕ) (template style : String)
    (size : Option Size3) : Room :=
  let shell :=
    if template = "basic" then createBasicRoom size
    else if template = "large" then createLargeRoom size
    else if template = "hall" then createHallRoom size
    else if template = "corner" then createCornerRoom size
    else createBasicRoom size
  { id := counter
  , template := template
  , style := style
  , shell := shell
  , artworkPlacements := setupArtworkWalls shell
  , position := ⟨0, 0, 0⟩ }

/-!  ## Hallway generation (`HallwayGenerator.js`)

As for rooms, only the `userData` of a generated hallway is consumed by the
layout engine; the mesh children are rendered appearance.  Crucially, the
template functions store connection metadata (`direction`, `isCurved`,
`elevationChange`, `isTransition`, `startStyle`, `endStyle`) on
`hallway.userData`, and `generateHallway` then assigns a fresh object to
`hallway.userData` (no spread of the existing fields, unlike
`RoomGenerator.generateRoom`), before adding the `size` field. -/

/-- Hallway dimensions (`width`/`height`/`length`). -/
structure HallwaySize where
  width : ℚ
  height : ℚ
  length : ℚ
deriving DecidableEq, Repr

/-- The `userData` of a hallway group.  A fresh `THREE.Group` starts with an
empty `userData` object, embedded as every field absent/false.  `id` embeds
the numeric part of `hallway_<counter>`; the `created` timestamp is not
modelled. -/
structure HallwayUserData where
  id : Option ℕ := none
  name : Option String := none
  template : Option String := none
  style : Option String := none
  size : Option HallwaySize := none
  direction : Option Vec3 := none
  isCurved : Bool := false
  elevationChange : Option ℚ := none
  isTransition : Bool := false
  startStyle : Option String := none
  endStyle : Option String := none
deriving DecidableEq, Repr

/-- A hallway group: its `userData`, the Y rotation (as a multiple of π)
and the world position later assigned by the layout engine / scene
manager. -/
structure Hallway where
  userData : HallwayUserData
  rotY : ℚ
  position : Vec3
deriving DecidableEq, Repr

/-- The default 4×4×10 hallway size of the `HallwayGenerator`
constructor. -/
def defaultHallwaySize : HallwaySize := ⟨4, 4, 10⟩

/-- `HallwayGenerator.createStraightHallway`: box shell open at both ends;
stores `userData.direction = (0, 0, 1)` ("for connecting rooms"). -/
def createStraightHallway (_style : StyleConfig) (_customSize : Option HallwaySize) :
    Hallway :=
  { userData := { direction := some ⟨0, 0, 1⟩ }
  , rotY := 0
  , position := ⟨0, 0, 0⟩ }

/-- `HallwayGenerator.createCurvedHallway`: ten incrementally rotated
segments forming a 90° arc; stores `userData.direction = (1, 0, 0)` and
`userData.isCurved = true`. -/
def createCurvedHallway (_style : StyleConfig) (_customSize : Option HallwaySize) :
    Hallway :=
  { userData := { direction := some ⟨1, 0, 0⟩, isCurved := true }
  , rotY := 0
  , position := ⟨0, 0, 0⟩ }

/-- `HallwayGenerator.createStairsHallway`: landings and
`Math.floor(height·0.6 / 0.25)` steps of height 0.25; stores
`userData.direction = (0, 0, 1)` and `userData.elevationChange =
numSteps · 0.25`. -/
def createStairsHallway (_style : StyleConfig) (customSize : Option HallwaySize) :
    Hallway :=
  let size := customSize.getD defaultHallwaySize
  let numSteps : ℕ := (⌊size.height * (3/5) / (1/4)⌋).toNat
  { userData :=
      { direction := some ⟨0, 0, 1⟩
      , elevationChange := some ((numSteps : ℚ) * (1/4)) }
  , rotY := 0
  , position := ⟨0, 0, 0⟩ }

/-- `HallwayGenerator.createTransitionHallway`: shell as straight but with
gradient surfaces; stores `userData.direction = (0, 0, 1)`,
`userData.isTransition = true` and the two style names
(`startStyleConfig.name` / `endStyleConfig.name`, defaulting to the main
style when absent). -/
def createTransitionHallway (style : StyleConfig) (_customSize : Option HallwaySize)
    (startStyleConfig endStyleConfig : Option StyleConfig) : Hallway :=
  let startCfg := startStyleConfig.getD style
  let endCfg := endStyleConfig.getD style
  { userData :=
      { direction := some ⟨0, 0, 1⟩
      , isTransition := true
      , startStyle := some startCfg.name
      , endStyle := some endCfg.name }
  , rotY := 0
  , position := ⟨0, 0, 0⟩ }

/-- `HallwayGenerator.generateHallway`: resolve the template function
(unknown template falls back to `straight`) and the style configurations,
build the hallway, then assign a fresh metadata object to
`hallway.userData` — `hallway.userData = { id, name, template, style,
created }` — and finally set `hallway.userData.size`.  Because the
assignment replaces the whole object rather than spreading the existing
fields, everything the template stored (direction and the optional flags)
is discarded. -/
def generateHallway (counter : ℕ) (template style : String)
    (size : Option HallwaySize) (startStyle endStyle : Option String) : Hallway :=
  let styleConfig := getStyle style
  let useExplicit := template = "transition" ∧ startStyle.isSome ∧ endStyle.isSome
  let startStyleConfig :=
    if useExplicit then (startStyle.map getStyle).getD styleConfig else styleConfig
  let endStyleConfig :=
    if useExplicit then (endStyle.map getStyle).getD styleConfig else styleConfig
  let hallway :=
    if template = "straight" then createStraightHallway styleConfig size
    else if template = "curved" then createCurvedHallway styleConfig size
    else if template = "stairs" then createStairsHallway styleConfig size
    else if template = "transition" then
      createTransitionHallway styleConfig size (some startStyleConfig) (some endStyleConfig)
    else createStraightHallway styleConfig size
  { hallway with
    userData :=
      { id := some counter
      , name := some ((style.take 1).toUpper ++ style.drop 1 ++ " " ++
          (template.take 1).toUpper ++ template.drop 1)
      , template := some template
      , style := some style
      , size := some (size.getD defaultHallwaySize) } }

/-!  ## Layout engine state (`MuseumLayout` + `SceneManager`)

`MuseumLayout` keeps its own `rooms`/`hallways` arrays and the occupancy
`grid`; `SceneManager` keeps the scene-graph groups `rooms`, `hallways` and
`artworks` and the `currentRoom` reference.  The two room collections must
be kept apart: `SceneManager.clearDistantObjects` removes children from the
scene-graph groups but never from `MuseumLayout`'s arrays or grid.

The JS object references stored in lists, grid and `currentRoom` are
embedded as structure values; since each generated room/hallway receives a
fresh counter id, value equality coincides with reference identity. -/

/-- An image record from the image-source collaborator
(`ImageSource.getImagesForThemes`).  Fields the placement code reads with
`||`-fallbacks are optional. -/
structure Image where
  title : Option String
  artist : Option String
  description : Option String
  source : Option String
  url : String
deriving DecidableEq, Repr

/-- A framed artwork instance as added to the scene manager's `artworks`
group: the frame's placement pose plus the interaction metadata attached to
`frame.userData`.  `ownerRoom` records which room's anchor produced the
instance; the source keeps no such back-reference, the field only names the
owner for specification purposes and affects no operation. -/
structure Artwork where
  ownerRoom : ℕ
  position : Vec3
  rotY : ℚ
  title : String
  artist : String
  description : String
  source : String
  url : String
deriving DecidableEq, Repr

/-- An occupancy-grid occupant: the room or hallway object stored at a
cell. -/
inductive Occupant where
  | room (r : Room)
  | hallway (h : Hallway)
deriving DecidableEq, Repr

/-- Lookup in the occupancy grid (`this.grid[gridKey]`). -/
def gridLookup (g : List (GridKey × Occupant)) (k : GridKey) : Option Occupant :=
  match g with
  | [] => none
  | (k', v) :: rest => if k = k' then some v else gridLookup rest k

/-- Assignment `this.grid[gridKey] = object`: overwrite the entry when the
key exists, append otherwise. -/
def gridSet (g : List (GridKey × Occupant)) (k : GridKey) (v : Occupant) :
    List (GridKey × Occupant) :=
  match g with
  | [] => [(k, v)]
  | (k', v') :: rest => if k = k' then (k, v) :: rest else (k', v') :: gridSet rest k v

/-- The combined mutable state of `MuseumLayout` and `SceneManager`. -/
structure MState where
  rooms : List Room
  hallways : List Hallway
  sceneRooms : List Room
  sceneHallways : List Hallway
  sceneArtworks : List Artwork
  grid : List (GridKey × Occupant)
  currentRoom : Option Room
  roomCounter : ℕ
  hallwayCounter : ℕ
deriving DecidableEq, Repr

/-- The state after the constructors run: no spaces, empty grid, no current
room, both id counters at zero. -/
def initialState : MState :=
  { rooms := [], hallways := [], sceneRooms := [], sceneHallways := []
  , sceneArtworks := [], grid := [], currentRoom := none
  , roomCounter := 0, hallwayCounter := 0 }

/-- One framed artwork of `MuseumLayout.placeArtworksInRoom`: frame pose
from the placement, metadata from the image with the source's
`||`-fallback strings. -/
def mkArtwork (room : Room) (placement : Placement) (image : Image) : Artwork :=
  { ownerRoom := room.id
  , position := placement.position
  , rotY := placement.rotY
  , title := image.title.getD "Untitled"
  , artist := image.artist.getD "Unknown Artist"
  , description := image.description.getD "No description available"
  , source := image.source.getD "Unknown Source"
  , url := image.url }

/-- The artworks `placeArtworksInRoom` creates for a room: no-op when the
room has no placement points or no image was returned, otherwise one framed
artwork per index `i < min(placements.length, images.length)`. -/
def artworksForRoom (room : Room) (images : List Image) : List Artwork :=
  let placements := room.artworkPlacements
  if placements.length = 0 then []
  else if images.length = 0 then []
  else (placements.zip images).map fun pi => mkArtwork room pi.1 pi.2

/-- `MuseumLayout.placeArtworksInRoom`, with the image list returned by the
image-source collaborator passed explicitly: each created frame is handed to
`SceneManager.addArtwork`, which appends it to the `artworks` group.  No
other state is touched. -/
def placeArtworksInRoom (st : MState) (room : Room) (images : List Image) : MState :=
  { st with sceneArtworks := st.sceneArtworks ++ artworksForRoom room images }

/-- The room-spacing configuration value (15 units between room centres). -/
def roomSpacing : ℚ := 15

/-- The half-spacing hallway position computed by
`generateNewRoomInDirection`: source position plus direction times
`roomSpacing / 2` on x and z (y is copied unchanged). -/
def hallwayTarget (sourcePosition direction : Vec3) : Vec3 :=
  ⟨sourcePosition.x + direction.x * (roomSpacing / 2), sourcePosition.y,
   sourcePosition.z + direction.z * (roomSpacing / 2)⟩

/-- The full-spacing room position computed by `checkAndGenerateNewRooms`
and `generateNewRoomInDirection`: source position plus direction times
`roomSpacing` on x and z (y is copied unchanged). -/
def roomTarget (sourcePosition direction : Vec3) : Vec3 :=
  ⟨sourcePosition.x + direction.x * roomSpacing, sourcePosition.y,
   sourcePosition.z + direction.z * roomSpacing⟩

/-- `MuseumLayout.generateNewRoomInDirection`: compute the half-spacing
hallway position and full-spacing room position, bail out silently when
either rounded cell is occupied, otherwise generate a (transition or
straight) hallway and a region-chosen room, rotate the hallway 90° when
the dominant travel axis is x, register both in the grid, append both to
the layout arrays and scene groups, and populate the room with artwork.
`pick` stands for the `Math.floor(Math.random() * length)` template index
and `images` for the image-source response. -/
def generateNewRoomInDirection (st : MState) (sourceRoom : Room)
    (direction : Vec3) (pick : ℕ) (images : List Image) : MState :=
  let hallwayPosition := hallwayTarget sourceRoom.position direction
  let roomPosition := roomTarget sourceRoom.position direction
  let hallwayKey := gridKeyOf hallwayPosition
  let roomKey := gridKeyOf roomPosition
  if (gridLookup st.grid hallwayKey).isSome ∨ (gridLookup st.grid roomKey).isSome then
    st
  else
    let region := getRegionForPosition roomPosition
    let sourceRegion := getRegionForPosition sourceRoom.position
    let isTransition := sourceRegion.name ≠ region.name
    let hallway0 :=
      if isTransition then
        generateHallway st.hallwayCounter "transition" "transition"
          (some ⟨4, 4, roomSpacing / 2⟩) (some sourceRegion.style) (some region.style)
      else
        generateHallway st.hallwayCounter "straight" region.style
          (some ⟨4, 4, roomSpacing / 2⟩) none none
    let hallway1 :=
      if |direction.x| > |direction.z| then { hallway0 with rotY := 1/2 } else hallway0
    let hallway := { hallway1 with position := hallwayPosition }
    let st1 := { st with
      sceneHallways := st.sceneHallways ++ [hallway]
      hallways := st.hallways ++ [hallway]
      grid := gridSet st.grid hallwayKey (.hallway hallway)
      hallwayCounter := st.hallwayCounter + 1 }
    let roomType := (region.roomTypes.get? (pick % region.roomTypes.length)).getD "basic"
    let room0 := generateRoom st1.roomCounter roomType region.style none
    let room := { room0 with position := roomPosition }
    let st2 := { st1 with
      sceneRooms := st1.sceneRooms ++ [room]
      rooms := st1.rooms ++ [room]
      grid := gridSet st1.grid roomKey (.room room)
      roomCounter := st1.roomCounter + 1 }
    placeArtworksInRoom st2 room images

/-- The movement-direction enum derived from key codes in
`VirtualMuseumApp.setupEventListeners` (W/S/A/D and arrows). -/
inductive MoveDir where
  | forward
  | backward
  | left
  | right
deriving DecidableEq, Repr

/-- The `switch(direction)` of `checkAndGenerateNewRooms` building the raw
direction vector before rotation. -/
def moveDirVector : MoveDir → Vec3
  | .forward => ⟨0, 0, -1⟩
  | .backward => ⟨0, 0, 1⟩
  | .left => ⟨-1, 0, 0⟩
  | .right => ⟨1, 0, 0⟩

/-- The nearest-room linear scan opening `checkAndGenerateNewRooms`:
starting from `nearestDistance = Infinity`, each room strictly closer than
the best so far replaces it.  Returns the room together with its squared
distance, or `none` when no room exists. -/
def nearestRoomScan (p : Vec3) (rooms : List Room) : Option (Room × ℚ) :=
  rooms.foldl
    (fun best r =>
      match best with
      | none => some (r, distSq p r.position)
      | some (br, bd) =>
          if distSq p r.position < bd then some (r, distSq p r.position)
          else some (br, bd))
    none

/-- `MuseumLayout.checkAndGenerateNewRooms`: find the nearest room; only
when it is within 5 units of the player **and** is not the current room,
mark it current, rotate the travel direction by the player's yaw
(`yawCos`/`yawSin` stand for the cosine and sine of
`camera.rotation.y`), and — when the candidate full-spacing cell is
unoccupied and within the generation distance (30) of the player — delegate
to `generateNewRoomInDirection`. -/
def checkAndGenerateNewRooms (st : MState) (playerPosition : Vec3)
    (direction : MoveDir) (yawCos yawSin : ℚ) (pick : ℕ)
    (images : List Image) : MState :=
  match nearestRoomScan playerPosition st.rooms with
  | none => st
  | some (nearestRoom, nearestDistSq) =>
    if nearestDistSq < 25 ∧ st.currentRoom ≠ some nearestRoom then
      let st1 := { st with currentRoom := some nearestRoom }
      let directionVector := rotateY yawCos yawSin (moveDirVector direction)
      let newRoomPosition := roomTarget nearestRoom.position directionVector
      if gridLookup st1.grid (gridKeyOf newRoomPosition) = none ∧
          distSq playerPosition newRoomPosition < 900 then
        generateNewRoomInDirection st1 nearestRoom directionVector pick images
      else st1
    else st

/-- The four cardinal directions of `generateSurroundingRooms`, in source
order (north, east, south, west) as `(x, z)` pairs. -/
def surroundDirections : List (ℚ × ℚ) := [(0, 1), (1, 0), (0, -1), (-1, 0)]

/-- One iteration of the `generateSurroundingRooms` loop: skip when the
room cell is occupied (only the room cell is checked here), otherwise
generate a straight hallway in the destination region's style at the
half-spacing offset (rotated 90° for east/west) and a region-chosen room at
the full-spacing offset, register and append both, and place artwork. -/
def surroundStep (centerPosition : Vec3) (st : MState) (dir : ℚ × ℚ)
    (pick : ℕ) (images : List Image) : MState :=
  let hallwayPosition : Vec3 :=
    ⟨centerPosition.x + dir.1 * (roomSpacing / 2), centerPosition.y,
     centerPosition.z + dir.2 * (roomSpacing / 2)⟩
  let roomPosition : Vec3 :=
    ⟨centerPosition.x + dir.1 * roomSpacing, centerPosition.y,
     centerPosition.z + dir.2 * roomSpacing⟩
  if (gridLookup st.grid (gridKeyOf roomPosition)).isSome then st
  else
    let region := getRegionForPosition roomPosition
    let hallway0 :=
      generateHallway st.hallwayCounter "straight" region.style
        (some ⟨4, 4, roomSpacing / 2⟩) none none
    let hallway1 := if dir.1 ≠ 0 then { hallway0 with rotY := 1/2 } else hallway0
    let hallway := { hallway1 with position := hallwayPosition }
    let st1 := { st with
      sceneHallways := st.sceneHallways ++ [hallway]
      hallways := st.hallways ++ [hallway]
      grid := gridSet st.grid (gridKeyOf hallwayPosition) (.hallway hallway)
      hallwayCounter := st.hallwayCounter + 1 }
    let roomType := (region.roomTypes.get? (pick % region.roomTypes.length)).getD "basic"
    let room0 := generateRoom st1.roomCounter roomType region.style none
    let room := { room0 with position := roomPosition }
    let st2 := { st1 with
      sceneRooms := st1.sceneRooms ++ [room]
      rooms := st1.rooms ++ [room]
      grid := gridSet st1.grid (gridKeyOf roomPosition) (.room room)
      roomCounter := st1.roomCounter + 1 }
    placeArtworksInRoom st2 room images

/-- `MuseumLayout.generateSurroundingRooms`: the loop over the four
cardinal directions.  `pick i` / `images i` supply the template choice and
image-source response of iteration `i`. -/
def generateSurroundingRooms (st : MState) (centerPosition : Vec3)
    (pick : ℕ → ℕ) (images : ℕ → List Image) : MState :=
  surroundDirections.enum.foldl
    (fun s idir => surroundStep centerPosition s idir.2 (pick idir.1) (images idir.1))
    st

/-- `MuseumLayout.generateInitialLayout`: generate the 20×8×20 large
classical entrance at the origin, add and register it, mark it current,
generate the four surrounding hallway+room pairs, then place the entrance
artworks. -/
def generateInitialLayout (pick : ℕ → ℕ) (images : ℕ → List Image)
    (entranceImages : List Image) : MState :=
  let entranceHall0 := generateRoom 0 "large" "classical" (some ⟨20, 8, 20⟩)
  let entrancePosition : Vec3 := ⟨0, 0, 0⟩
  let entranceHall := { entranceHall0 with position := entrancePosition }
  let st1 := { initialState with
    sceneRooms := [entranceHall]
    rooms := [entranceHall]
    grid := gridSet initialState.grid (gridKeyOf entrancePosition) (.room entranceHall)
    currentRoom := some entranceHall
    roomCounter := 1 }
  let st2 := generateSurroundingRooms st1 entrancePosition pick images
  placeArtworksInRoom st2 entranceHall entranceImages

/-- `SceneManager.clearDistantObjects`: detach and dispose every scene room
farther than `maxDistance` from the camera except the current room, and
every scene hallway farther than `maxDistance`.  Artworks, the layout
arrays, the grid and the current-room reference are not touched. -/
def clearDistantObjects (st : MState) (cameraPosition : Vec3)
    (maxDistance : ℚ) : MState :=
  { st with
    sceneRooms := st.sceneRooms.filter fun room =>
      if st.currentRoom ≠ some room ∧
          distSq cameraPosition room.position > maxDistance ^ 2 then false else true
    sceneHallways := st.sceneHallways.filter fun hallway =>
      if distSq cameraPosition hallway.position > maxDistance ^ 2 then false else true }

/-- The maximum render distance configuration value (50 units). -/
def maxRenderDistance : ℚ := 50

/-- `MuseumLayout.update`: per-frame eviction of distant spaces via
`clearDistantObjects` with `maxRenderDistance`, followed by `updateLOD`.
`updateLOD`/`applyLOD` only toggle the `visible` flag of detail-tagged
child meshes inside still-loaded rooms (modelled separately below as
`applyLOD`); they read but never write any state tracked in `MState`. -/
def update (st : MState) (playerPosition : Vec3) : MState :=
  clearDistantObjects st playerPosition maxRenderDistance

/-- A child mesh of a room group as `applyLOD` sees it: the `isMesh` flag,
the optional `userData.detail` tag and the `visible` flag. -/
structure MeshChild where
  isMesh : Bool
  detail : Option String
  visible : Bool
deriving DecidableEq, Repr

/-- `MuseumLayout.applyLOD` on a single traversed child: detail-tagged
meshes get `visible = distanceFactor < 0.7` (tag `'high'`) or
`visible = distanceFactor < 0.9` (tag `'medium'`); everything else is left
untouched.  The JS truthiness test on `userData.detail` excludes the empty
string. -/
def applyLODChild (distanceFactor : ℚ) (child : MeshChild) : MeshChild :=
  match child.detail with
  | some d =>
      if child.isMesh ∧ d ≠ "" then
        if d = "high" then { child with visible := decide (distanceFactor < 7/10) }
        else if d = "medium" then { child with visible := decide (distanceFactor < 9/10) }
        else child
      else child
  | none => child

/-- `MuseumLayout.applyLOD`: traverse all children of a room group and
apply the per-child toggle.  `distanceFactor` is the normalized distance
`min(distance / maxRenderDistance, 1)` computed by `updateLOD` for rooms
within render distance. -/
def applyLOD (object : List MeshChild) (distanceFactor : ℚ) : List MeshChild :=
  object.map (applyLODChild distanceFactor)

/-- The external triggers that drive the layout engine after boot: a
movement key event (which calls `checkAndGenerateNewRooms` with the camera
position, direction and yaw) and a rendered frame (which calls
`update`). -/
inductive MuseumOp where
  | move (playerPosition : Vec3) (direction : MoveDir) (yawCos yawSin : ℚ)
      (pick : ℕ) (images : List Image)
  | frame (playerPosition : Vec3)

/-- Dispatch one external trigger. -/
def applyOp (st : MState) : MuseumOp → MState
  | .move p d c s pick imgs => checkAndGenerateNewRooms st p d c s pick imgs
  | .frame p => update st p

/-!  ## Helper lemmas -/

theorem gridLookup_gridSet (g : List (GridKey × Occupant)) (k k' : GridKey)
    (v : Occupant) :
    gridLookup (gridSet g k' v) k = if k = k' then some v else gridLookup g k := by
  induction g with
  | nil => simp [gridSet, gridLookup]
  | cons hd tl ih =>
      obtain ⟨k0, v0⟩ := hd
      by_cases h0 : k' = k0
      · subst h0
        by_cases hk : k = k' <;> simp [gridSet, gridLookup, hk]
      · by_cases hk : k = k0
        · subst hk
          have hks : ¬k = k' := fun e => h0 e.symm
          simp [gridSet, gridLookup, h0, hks]
        · simp [gridSet, gridLookup, h0, hk, ih]

theorem generateNewRoomInDirection_grid_mono (st : MState) (sourceRoom : Room)
    (direction : Vec3) (pick : ℕ) (images : List Image) (k : GridKey) (v : Occupant)
    (h : gridLookup st.grid k = some v) :
    gridLookup (generateNewRoomInDirection st sourceRoom direction pick images).grid k
      = some v := by
  unfold generateNewRoomInDirection
  cases hh : gridLookup st.grid (gridKeyOf (hallwayTarget sourceRoom.position direction)) with
  | some w => simpa [hh] using h
  | none =>
    cases hr : gridLookup st.grid (gridKeyOf (roomTarget sourceRoom.position direction)) with
    | some w => simpa [hh, hr] using h
    | none =>
      have hkh : k ≠ gridKeyOf (hallwayTarget sourceRoom.position direction) := by
        intro e; rw [e, hh] at h; exact Option.noConfusion h
      have hkr : k ≠ gridKeyOf (roomTarget sourceRoom.position direction) := by
        intro e; rw [e, hr] at h; exact Option.noConfusion h
      simp [hh, hr, placeArtworksInRoom, gridLookup_gridSet, hkh, hkr, h]

theorem checkAndGenerateNewRooms_grid_mono (st : MState) (p : Vec3) (dir : MoveDir)
    (c s : ℚ) (pick : ℕ) (imgs : List Image) (k : GridKey) (v : Occupant)
    (h : gridLookup st.grid k = some v) :
    gridLookup (checkAndGenerateNewRooms st p dir c s pick imgs).grid k = some v := by
  unfold checkAndGenerateNewRooms
  cases hscan : nearestRoomScan p st.rooms with
  | none => exact h
  | some pr =>
      obtain ⟨nr, d⟩ := pr
      dsimp only
      split_ifs with h1 h2
      · exact generateNewRoomInDirection_grid_mono _ nr _ pick imgs k v h
      · exact h
      · exact h

theorem applyOp_grid_mono (st : MState) (op : MuseumOp) (k : GridKey) (v : Occupant)
    (h : gridLookup st.grid k = some v) :
    gridLookup (applyOp st op).grid k = some v := by
  cases op with
  | move p d c s pick imgs => exact checkAndGenerateNewRooms_grid_mono st p d c s pick imgs k v h
  | frame p => exact h

/-!  ## Claim theorems -/

/-- C1: a movement-triggered generation attempt
(`generateNewRoomInDirection`) whose target hallway cell or room cell
(rounded to integer coordinates) is already occupied in the occupancy grid
is a silent no-op: no hallway and no room are generated, the rooms and
hallways lists keep their lengths, and the grid keeps exactly its previous
occupant for every key. -/
theorem occupied_cell_generation_is_noop (st : MState) (sourceRoom : Room)
    (direction : Vec3) (pick : ℕ) (images : List Image)
    (h : (gridLookup st.grid (gridKeyOf (hallwayTarget sourceRoom.position direction))).isSome ∨
         (gridLookup st.grid (gridKeyOf (roomTarget sourceRoom.position direction))).isSome) :
    generateNewRoomInDirection st sourceRoom direction pick images = st ∧
    (generateNewRoomInDirection st sourceRoom direction pick images).rooms.length
      = st.rooms.length ∧
    (generateNewRoomInDirection st sourceRoom direction pick images).hallways.length
      = st.hallways.length ∧
    ∀ cell : GridKey,
      gridLookup (generateNewRoomInDirection st sourceRoom direction pick images).grid cell
        = gridLookup st.grid cell := by
  have he : generateNewRoomInDirection st sourceRoom direction pick images = st := by
    unfold generateNewRoomInDirection
    simp [h]
  exact ⟨he, by rw [he], by rw [he], fun cell => by rw [he]⟩

/-- C1 witness: a concrete state whose hallway target cell `(0,0,8)` is
occupied; the attempt changes nothing. -/
theorem occupied_cell_generation_is_noop_witness :
    (gridLookup
        [(((0 : ℤ), (0 : ℤ), (8 : ℤ)), Occupant.room (generateRoom 0 "basic" "classical" none))]
        (gridKeyOf (hallwayTarget (generateRoom 0 "basic" "classical" none).position
          ⟨0, 0, 1⟩))).isSome = true ∧
    generateNewRoomInDirection
        { initialState with
          rooms := [generateRoom 0 "basic" "classical" none]
          grid := [(((0 : ℤ), (0 : ℤ), (8 : ℤ)),
            Occupant.room (generateRoom 0 "basic" "classical" none))] }
        (generateRoom 0 "basic" "classical" none) ⟨0, 0, 1⟩ 0 []
      = { initialState with
          rooms := [generateRoom 0 "basic" "classical" none]
          grid := [(((0 : ℤ), (0 : ℤ), (8 : ℤ)),
            Occupant.room (generateRoom 0 "basic" "classical" none))] } := by
  have hkey : gridKeyOf (hallwayTarget (generateRoom 0 "basic" "classical" none).position
      ⟨0, 0, 1⟩) = ((0 : ℤ), (0 : ℤ), (8 : ℤ)) := by
    norm_num [gridKeyOf, hallwayTarget, roomSpacing, generateRoom, round_eq]
  refine ⟨by rw [hkey]; rfl, ?_⟩
  exact (occupied_cell_generation_is_noop _ _ _ 0 [] (Or.inl (by rw [hkey]; rfl))).1

/-- C3: occupancy-grid entries persist through every external trigger of
the layout engine — movement events (`checkAndGenerateNewRooms`, including
any generation they cause) and per-frame updates (`update`, including
eviction of distant spaces via `clearDistantObjects`, which removes scene
objects but never grid entries).  Once a cell key maps to an occupant it
keeps exactly that occupant for the rest of the execution. -/
theorem grid_entry_persists_forever (ops : List MuseumOp) (st : MState)
    (k : GridKey) (v : Occupant) (h : gridLookup st.grid k = some v) :
    gridLookup (ops.foldl applyOp st).grid k = some v := by
  induction ops generalizing st with
  | nil => exact h
  | cons op rest ih =>
      rw [List.foldl_cons]
      exact ih (applyOp st op) (applyOp_grid_mono st op k v h)

/-- C3 witness: a registered cell at `(0,0,0)` survives a frame update that
evicts its (distant) room and a subsequent movement event. -/
theorem grid_entry_persists_forever_witness :
    gridLookup
        [(((0 : ℤ), (0 : ℤ), (0 : ℤ)), Occupant.room (generateRoom 0 "basic" "classical" none))]
        ((0 : ℤ), (0 : ℤ), (0 : ℤ))
      = some (Occupant.room (generateRoom 0 "basic" "classical" none)) ∧
    gridLookup
        (([MuseumOp.frame ⟨200, 0, 0⟩,
           MuseumOp.move ⟨200, 0, 0⟩ MoveDir.forward 1 0 0 []].foldl applyOp
          { initialState with
            rooms := [generateRoom 0 "basic" "classical" none]
            sceneRooms := [generateRoom 0 "basic" "classical" none]
            grid := [(((0 : ℤ), (0 : ℤ), (0 : ℤ)),
              Occupant.room (generateRoom 0 "basic" "classical" none))] })).grid
        ((0 : ℤ), (0 : ℤ), (0 : ℤ))
      = some (Occupant.room (generateRoom 0 "basic" "classical" none)) := by
  refine ⟨rfl, ?_⟩
  exact grid_entry_persists_forever _ _ _ _ rfl

/-- C10: a movement event is a complete no-op — no generation, no grid
entry, no current-room change — whenever no rooms exist, or the room
nearest to the player is already the current room, or that nearest room
lies 5 or more units (25 in squared distance) from the player.  Expansion
can only fire at the moment the player comes within 5 units of a room
different from the current one. -/
theorem movement_noop_unless_near_new_room (st : MState) (p : Vec3)
    (dir : MoveDir) (c s : ℚ) (pick : ℕ) (imgs : List Image)
    (h : nearestRoomScan p st.rooms = none ∨
         ∃ nr d, nearestRoomScan p st.rooms = some (nr, d) ∧
           (st.currentRoom = some nr ∨ 25 ≤ d)) :
    checkAndGenerateNewRooms st p dir c s pick imgs = st := by
  unfold checkAndGenerateNewRooms
  rcases h with h | ⟨nr, d, hscan, hcond⟩
  · rw [h]
  · rw [hscan]
    have hneg : ¬(d < 25 ∧ st.currentRoom ≠ some nr) := by
      rcases hcond with h1 | h2
      · rintro ⟨-, hne⟩; exact hne h1
      · rintro ⟨hlt, -⟩; exact absurd hlt (not_lt.mpr h2)
    simp [hneg]

/-- C10 witness: with no rooms at all, a movement event leaves the state
untouched. -/
theorem movement_noop_unless_near_new_room_witness :
    nearestRoomScan ⟨0, 0, 0⟩ initialState.rooms = none ∧
    checkAndGenerateNewRooms initialState ⟨0, 0, 0⟩ MoveDir.forward 1 0 0 []
      = initialState :=
  ⟨rfl, movement_noop_unless_near_new_room initialState ⟨0, 0, 0⟩ MoveDir.forward 1 0 0 []
    (Or.inl rfl)⟩

/-- C5 (code bug): each hallway template function stores the connection
metadata the claim describes — `createStraightHallway` the direction
`(0,0,1)`, `createCurvedHallway` the post-turn direction `(1,0,0)` and the
curved flag, `createStairsHallway` the elevation change (9 steps × 0.25 for
the default height 4), `createTransitionHallway` the transition flag with
start/end style names — but `generateHallway` then assigns a fresh object
to `hallway.userData`, so every hallway it returns carries none of that
metadata: direction absent, flags cleared. -/
theorem generateHallway_drops_template_metadata :
    (createStraightHallway classicalStyle none).userData.direction = some ⟨0, 0, 1⟩ ∧
    (createCurvedHallway classicalStyle none).userData.direction = some ⟨1, 0, 0⟩ ∧
    (createCurvedHallway classicalStyle none).userData.isCurved = true ∧
    (createStairsHallway classicalStyle none).userData.elevationChange = some (9/4) ∧
    (createTransitionHallway classicalStyle none
        (some futuristicStyle) (some abstractStyle)).userData.isTransition = true ∧
    (createTransitionHallway classicalStyle none
        (some futuristicStyle) (some abstractStyle)).userData.startStyle
      = some "futuristic" ∧
    (createTransitionHallway classicalStyle none
        (some futuristicStyle) (some abstractStyle)).userData.endStyle
      = some "abstract" ∧
    (generateHallway 0 "straight" "classical" none none none).userData.direction = none ∧
    (generateHallway 0 "curved" "classical" none none none).userData.direction = none ∧
    (generateHallway 0 "curved" "classical" none none none).userData.isCurved = false ∧
    (generateHallway 0 "stairs" "classical" none none none).userData.elevationChange
      = none ∧
    (generateHallway 0 "transition" "transition" none
        (some "futuristic") (some "abstract")).userData.isTransition = false ∧
    (generateHallway 0 "transition" "transition" none
        (some "futuristic") (some "abstract")).userData.startStyle = none ∧
    (generateHallway 0 "transition" "transition" none
        (some "futuristic") (some "abstract")).userData.endStyle = none := by
  refine ⟨rfl, rfl, rfl, ?_, rfl, rfl, rfl, rfl, rfl, rfl, rfl, rfl, rfl, rfl⟩
  simp only [createStairsHallway, defaultHallwaySize, Option.getD_none]
  norm_num
  rw [show Int.toNat 9 = 9 from rfl]
  norm_num

/-- C7: for every world position, the region lookup returns a region of the
static region list — the one whose centre is nearest by full 3D Euclidean
distance (compared here via squared distances, which order identically),
with ties broken in favour of the earliest-registered region — and being a
pure total function it returns the same region on every repeated call, with
no radius cutoff restricting any position. -/
theorem regionFor_nearest_with_tiebreak (p : Vec3) :
    getRegionForPosition p ∈ museumRegions ∧
    (∀ r ∈ museumRegions,
      distSq p (getRegionForPosition p).center ≤ distSq p r.center) ∧
    (∃ i, museumRegions.get? i = some (getRegionForPosition p) ∧
      ∀ j, j < i → ∀ r, museumRegions.get? j = some r →
        distSq p (getRegionForPosition p).center < distSq p r.center) := by
  by_cases h1 : distSq p futuristicExhibition.center < distSq p classicalGallery.center
  · by_cases h2 : distSq p abstractCollection.center < distSq p futuristicExhibition.center
    · have hres : getRegionForPosition p = abstractCollection := by
        simp [getRegionForPosition, regionScan, h1, h2]
      rw [hres]
      refine ⟨by simp [museumRegions], ?_, 2, by simp [museumRegions], ?_⟩
      · intro r hr
        simp [museumRegions] at hr
        rcases hr with rfl | rfl | rfl
        · linarith
        · linarith
        · exact le_refl _
      · intro j hj r hr
        interval_cases j <;> simp [museumRegions] at hr <;> subst hr <;> linarith
    · have hres : getRegionForPosition p = futuristicExhibition := by
        simp [getRegionForPosition, regionScan, h1, h2]
      rw [hres]
      refine ⟨by simp [museumRegions], ?_, 1, by simp [museumRegions], ?_⟩
      · intro r hr
        simp [museumRegions] at hr
        rcases hr with rfl | rfl | rfl
        · linarith
        · exact le_refl _
        · linarith [not_lt.mp h2]
      · intro j hj r hr
        interval_cases j
        simp [museumRegions] at hr
        subst hr
        linarith
  · by_cases h2 : distSq p abstractCollection.center < distSq p classicalGallery.center
    · have hres : getRegionForPosition p = abstractCollection := by
        simp [getRegionForPosition, regionScan, h1, h2]
      rw [hres]
      refine ⟨by simp [museumRegions], ?_, 2, by simp [museumRegions], ?_⟩
      · intro r hr
        simp [museumRegions] at hr
        rcases hr with rfl | rfl | rfl
        · linarith
        · linarith [not_lt.mp h1]
        · exact le_refl _
      · intro j hj r hr
        interval_cases j <;> simp [museumRegions] at hr <;> subst hr <;>
          linarith [not_lt.mp h1]
    · have hres : getRegionForPosition p = classicalGallery := by
        simp [getRegionForPosition, regionScan, h1, h2]
      rw [hres]
      refine ⟨by simp [museumRegions], ?_, 0, by simp [museumRegions], ?_⟩
      · intro r hr
        simp [museumRegions] at hr
        rcases hr with rfl | rfl | rfl
        · exact le_refl _
        · exact not_lt.mp h1
        · exact not_lt.mp h2
      · intro j hj r hr
        exact absurd hj (Nat.not_lt_zero j)

/-- C7 witness: at position (60,0,0) the lookup lands in the region list
and its squared distance is no larger than the classical gallery's. -/
theorem regionFor_nearest_with_tiebreak_witness :
    getRegionForPosition ⟨60, 0, 0⟩ ∈ museumRegions ∧
    distSq ⟨60, 0, 0⟩ (getRegionForPosition ⟨60, 0, 0⟩).center
      ≤ distSq ⟨60, 0, 0⟩ classicalGallery.center :=
  ⟨(regionFor_nearest_with_tiebreak ⟨60, 0, 0⟩).1,
   (regionFor_nearest_with_tiebreak ⟨60, 0, 0⟩).2.1 classicalGallery
     (by simp [museumRegions])⟩

/-- C8: the per-frame LOD toggle.  `applyLOD` maps the per-child toggle
over every traversed child; a child mesh tagged `'high'` ends hidden
exactly when the normalized distance factor is ≥ 0.7, one tagged
`'medium'` exactly when it is ≥ 0.9, and untagged or `'low'`-tagged
children keep their visibility (so are never hidden by the update). -/
theorem lod_policy (f : ℚ) (children : List MeshChild) (i : ℕ) (c : MeshChild)
    (hc : children.get? i = some c) :
    (applyLOD children f).get? i = some (applyLODChild f c) ∧
    (c.isMesh = true → c.detail = some "high" →
      ((applyLODChild f c).visible = false ↔ 7/10 ≤ f)) ∧
    (c.isMesh = true → c.detail = some "medium" →
      ((applyLODChild f c).visible = false ↔ 9/10 ≤ f)) ∧
    ((c.detail = none ∨ c.detail = some "low") →
      (applyLODChild f c).visible = c.visible) := by
  have hc' : children[i]? = some c := by
    rw [← List.get?_eq_getElem?]
    exact hc
  refine ⟨by simp only [applyLOD, List.get?_eq_getElem?, List.getElem?_map, hc',
    Option.map], ?_, ?_, ?_⟩
  · intro hm hd
    simp [applyLODChild, hd, hm, decide_eq_false_iff_not, not_lt]
  · intro hm hd
    simp [applyLODChild, hd, hm, decide_eq_false_iff_not, not_lt]
  · rintro (hd | hd) <;> simp [applyLODChild, hd]

/-- C8 witness (Scenario 4): at normalized distance 0.95 a high-tagged and
a medium-tagged child mesh end hidden while a low-tagged one stays
visible. -/
theorem lod_policy_witness :
    (applyLODChild (19/20) ⟨true, some "high", true⟩).visible = false ∧
    (applyLODChild (19/20) ⟨true, some "medium", true⟩).visible = false ∧
    (applyLODChild (19/20) ⟨true, some "low", true⟩).visible = true := by
  have h1 := lod_policy (19/20) [⟨true, some "high", true⟩] 0 ⟨true, some "high", true⟩ rfl
  have h2 := lod_policy (19/20) [⟨true, some "medium", true⟩] 0
    ⟨true, some "medium", true⟩ rfl
  have h3 := lod_policy (19/20) [⟨true, some "low", true⟩] 0 ⟨true, some "low", true⟩ rfl
  exact ⟨(h1.2.1 rfl rfl).mpr (by norm_num), (h2.2.2.1 rfl rfl).mpr (by norm_num),
    h3.2.2.2 (Or.inr rfl)⟩

/-!  ## Artwork / eviction (claim C6) -/

theorem wallTileCount_ten : wallTileCount 10 = 4 := by
  unfold wallTileCount anchorPitch
  rw [show ⌊(10:ℚ) / (2 + 1/2)⌋ = (4:ℤ) by norm_num]
  rfl

theorem basicRoom_placements_length :
    (generateRoom 0 "basic" "classical" none).artworkPlacements.length = 12 := by
  simp only [generateRoom, setupArtworkWalls, createBasicRoom,
    backWallTiles, leftWallTiles, rightWallTiles, wallTileCount_ten,
    List.length_append, List.length_map, List.length_range, Option.getD_none,
    reduceIte, List.length_nil]

/-- The room whose eviction the C6 counterexample exercises: a basic room
placed at (100,0,0). -/
def evictionExampleRoom : Room :=
  { generateRoom 0 "basic" "classical" none with position := ⟨100, 0, 0⟩ }

/-- The room marked current in the C6 counterexample, at the origin. -/
def evictionCurrentRoom : Room :=
  { generateRoom 1 "basic" "classical" none with position := ⟨0, 0, 0⟩ }

/-- A concrete image record for the C6 counterexample. -/
def evictionExampleImage : Image :=
  { title := some "t", artist := some "a", description := some "d"
  , source := some "s", url := "https://example.test/art.jpg" }

/-- The C6 counterexample state: both rooms in the scene, the origin room
current, and one artwork placed at an anchor of the distant room. -/
def evictionExampleState : MState :=
  placeArtworksInRoom
    { initialState with
      rooms := [evictionExampleRoom, evictionCurrentRoom]
      sceneRooms := [evictionExampleRoom, evictionCurrentRoom]
      currentRoom := some evictionCurrentRoom
      roomCounter := 2 }
    evictionExampleRoom [evictionExampleImage]

/-- C6 counterexample: a frame update evicts the distant room (it leaves
the scene rooms), yet the single artwork placed at that room's anchor
survives untouched in the artworks group — the claim that no artwork
survives the eviction of its owning Space is false.
`clearDistantObjects` examines only the rooms and hallways groups. -/
theorem artwork_survives_owner_eviction_counterexample :
    (update evictionExampleState ⟨0, 0, 0⟩).sceneRooms = [evictionCurrentRoom] ∧
    evictionExampleState.sceneArtworks.length = 1 ∧
    evictionExampleState.sceneArtworks.map (fun a => a.ownerRoom)
      = [evictionExampleRoom.id] ∧
    (update evictionExampleState ⟨0, 0, 0⟩).sceneArtworks
      = evictionExampleState.sceneArtworks := by
  have h12 : evictionExampleRoom.artworkPlacements.length = 12 :=
    basicRoom_placements_length
  obtain ⟨p0, rest, hps⟩ :
      ∃ p0 rest, evictionExampleRoom.artworkPlacements = p0 :: rest := by
    cases hp : evictionExampleRoom.artworkPlacements with
    | nil => rw [hp] at h12; simp at h12
    | cons a l => exact ⟨a, l, rfl⟩
  refine ⟨?_, ?_, ?_, rfl⟩
  · have hne : (some evictionCurrentRoom ≠ some evictionExampleRoom) := by
      intro h
      have h2 := congrArg Room.id (Option.some.inj h)
      exact absurd h2 (by decide)
    have hfar : distSq ⟨0, 0, 0⟩ evictionExampleRoom.position
        > maxRenderDistance ^ 2 := by
      norm_num [distSq, evictionExampleRoom, maxRenderDistance]
    simp only [update, clearDistantObjects, evictionExampleState,
      placeArtworksInRoom, List.filter]
    rw [if_pos ⟨hne, hfar⟩]
    have hcur : ¬((some evictionCurrentRoom ≠ some evictionCurrentRoom) ∧
        distSq ⟨0, 0, 0⟩ evictionCurrentRoom.position > maxRenderDistance ^ 2) := by
      rintro ⟨hc, -⟩
      exact hc rfl
    rw [if_neg hcur]
  · simp [evictionExampleState, placeArtworksInRoom, artworksForRoom,
      initialState, hps, mkArtwork]
  · simp [evictionExampleState, placeArtworksInRoom, artworksForRoom,
      initialState, hps, mkArtwork]

/-- C6 amended: when a non-current room lies beyond the maximum render
distance, the per-frame update removes it from the scene rooms, but its
artwork instances are not destroyed with it: `clearDistantObjects` never
examines the artworks group, so the artworks collection is exactly
unchanged by eviction. -/
theorem artwork_survives_owner_eviction (st : MState) (p : Vec3) (room : Room)
    (hcur : st.currentRoom ≠ some room)
    (hfar : distSq p room.position > maxRenderDistance ^ 2) :
    room ∉ (update st p).sceneRooms ∧
    (update st p).sceneArtworks = st.sceneArtworks := by
  refine ⟨?_, rfl⟩
  intro hmem
  simp only [update, clearDistantObjects, List.mem_filter] at hmem
  rw [if_pos ⟨hcur, hfar⟩] at hmem
  exact Bool.noConfusion hmem.2

/-- C6 amended witness: in the counterexample state the distant room is
indeed evicted while the artworks list survives unchanged. -/
theorem artwork_survives_owner_eviction_witness :
    evictionExampleRoom ∉ (update evictionExampleState ⟨0, 0, 0⟩).sceneRooms ∧
    (update evictionExampleState ⟨0, 0, 0⟩).sceneArtworks
      = evictionExampleState.sceneArtworks := by
  apply artwork_survives_owner_eviction
  · intro h
    have h2 := congrArg Room.id (Option.some.inj h)
    exact absurd h2 (by decide)
  · norm_num [distSq, evictionExampleRoom, maxRenderDistance]

/-- C2 amended: the engine computes the candidate next-room position as
the nearest room's position plus the yaw-rotated travel direction times the
room spacing; generation however additionally requires the movement guard —
the nearest room within 5 units of the player and different from the
current room — and that the half-spacing hallway cell be unoccupied as
well.  Under those conditions plus the claim's own two (candidate cell
unoccupied, candidate within the 30-unit generation distance), the engine
generates a hallway at the half-spacing offset and a room at the
full-spacing offset in the travel direction. -/
theorem expansion_generates_at_offsets (st : MState) (p : Vec3) (dir : MoveDir)
    (c s : ℚ) (pick : ℕ) (imgs : List Image) (nr : Room) (d : ℚ)
    (hscan : nearestRoomScan p st.rooms = some (nr, d))
    (hnear : d < 25)
    (hcur : st.currentRoom ≠ some nr)
    (hhallfree : gridLookup st.grid
      (gridKeyOf (hallwayTarget nr.position (rotateY c s (moveDirVector dir)))) = none)
    (hroomfree : gridLookup st.grid
      (gridKeyOf (roomTarget nr.position (rotateY c s (moveDirVector dir)))) = none)
    (hgen : distSq p (roomTarget nr.position (rotateY c s (moveDirVector dir))) < 900) :
    (checkAndGenerateNewRooms st p dir c s pick imgs).hallways.map (fun hw => hw.position)
      = st.hallways.map (fun hw => hw.position)
        ++ [hallwayTarget nr.position (rotateY c s (moveDirVector dir))] ∧
    (checkAndGenerateNewRooms st p dir c s pick imgs).rooms.map (fun r => r.position)
      = st.rooms.map (fun r => r.position)
        ++ [roomTarget nr.position (rotateY c s (moveDirVector dir))] ∧
    (checkAndGenerateNewRooms st p dir c s pick imgs).sceneHallways.map (fun hw => hw.position)
      = st.sceneHallways.map (fun hw => hw.position)
        ++ [hallwayTarget nr.position (rotateY c s (moveDirVector dir))] ∧
    (checkAndGenerateNewRooms st p dir c s pick imgs).sceneRooms.map (fun r => r.position)
      = st.sceneRooms.map (fun r => r.position)
        ++ [roomTarget nr.position (rotateY c s (moveDirVector dir))] := by
  unfold checkAndGenerateNewRooms
  rw [hscan]
  dsimp only
  rw [if_pos ⟨hnear, hcur⟩, if_pos (⟨hroomfree, hgen⟩ :
    gridLookup st.grid (gridKeyOf (roomTarget nr.position (rotateY c s (moveDirVector dir)))) = none ∧
    distSq p (roomTarget nr.position (rotateY c s (moveDirVector dir))) < 900)]
  unfold generateNewRoomInDirection
  dsimp only
  rw [if_neg (by simp [hhallfree, hroomfree])]
  simp [placeArtworksInRoom]


/-- The single room (current) of the C2 counterexample state. -/
def expansionBlockedRoom : Room :=
  { generateRoom 0 "large" "classical" (some ⟨20, 8, 20⟩) with position := ⟨0, 0, 0⟩ }

/-- C2 counterexample state: one room at the origin, registered and
current. -/
def expansionBlockedState : MState :=
  { initialState with
    rooms := [expansionBlockedRoom]
    sceneRooms := [expansionBlockedRoom]
    grid := [(((0:ℤ), (0:ℤ), (0:ℤ)), Occupant.room expansionBlockedRoom)]
    currentRoom := some expansionBlockedRoom
    roomCounter := 1 }

/-- C2 counterexample: a movement event whose candidate cell is unoccupied
and within the generation distance, yet nothing is generated, because the
nearest room is already the current room — refuting the claim that those
two conditions alone suffice for generation. -/
theorem expansion_requires_guard_counterexample :
    gridLookup expansionBlockedState.grid
      (gridKeyOf (roomTarget expansionBlockedRoom.position
        (rotateY 1 0 (moveDirVector MoveDir.forward)))) = none ∧
    distSq ⟨0, 0, 0⟩ (roomTarget expansionBlockedRoom.position
      (rotateY 1 0 (moveDirVector MoveDir.forward))) < 900 ∧
    checkAndGenerateNewRooms expansionBlockedState ⟨0, 0, 0⟩ MoveDir.forward 1 0 0 []
      = expansionBlockedState := by
  have hkey : gridKeyOf (roomTarget expansionBlockedRoom.position
      (rotateY 1 0 (moveDirVector MoveDir.forward))) = ((0:ℤ), (0:ℤ), (-15:ℤ)) := by
    norm_num [gridKeyOf, roomTarget, rotateY, moveDirVector, expansionBlockedRoom,
      roomSpacing, round_eq]
  refine ⟨?_, ?_, ?_⟩
  · rw [hkey]; rfl
  · norm_num [distSq, roomTarget, rotateY, moveDirVector, expansionBlockedRoom, roomSpacing]
  · simp [checkAndGenerateNewRooms, nearestRoomScan, expansionBlockedState]

/-- The single (non-current) room of the C2 amended-witness state. -/
def expansionWitnessRoom : Room :=
  { generateRoom 0 "basic" "classical" none with position := ⟨0, 0, 0⟩ }

/-- C2 amended-witness state: one room at the origin, registered, with no
current room marked. -/
def expansionWitnessState : MState :=
  { initialState with
    rooms := [expansionWitnessRoom]
    sceneRooms := [expansionWitnessRoom]
    grid := [(((0:ℤ), (0:ℤ), (0:ℤ)), Occupant.room expansionWitnessRoom)]
    currentRoom := none
    roomCounter := 1 }

/-- C2 amended witness: a concrete state (one non-current room at the
origin, player 1 unit away) in which the movement event appends exactly one
hallway at the half-spacing offset. -/
theorem expansion_generates_at_offsets_witness :
    nearestRoomScan ⟨1, 0, 0⟩ expansionWitnessState.rooms
      = some (expansionWitnessRoom, 1) ∧
    (checkAndGenerateNewRooms expansionWitnessState ⟨1, 0, 0⟩
        MoveDir.forward 1 0 0 []).hallways.map (fun hw => hw.position)
      = [hallwayTarget expansionWitnessRoom.position
          (rotateY 1 0 (moveDirVector MoveDir.forward))] := by
  have hscan : nearestRoomScan ⟨1, 0, 0⟩ expansionWitnessState.rooms
      = some (expansionWitnessRoom, 1) := by
    simp [nearestRoomScan, expansionWitnessState, distSq, expansionWitnessRoom]
  have hhk : gridKeyOf (hallwayTarget expansionWitnessRoom.position
      (rotateY 1 0 (moveDirVector MoveDir.forward))) = ((0:ℤ), (0:ℤ), (-7:ℤ)) := by
    norm_num [gridKeyOf, hallwayTarget, rotateY, moveDirVector, expansionWitnessRoom,
      roomSpacing, round_eq]
  have hrk : gridKeyOf (roomTarget expansionWitnessRoom.position
      (rotateY 1 0 (moveDirVector MoveDir.forward))) = ((0:ℤ), (0:ℤ), (-15:ℤ)) := by
    norm_num [gridKeyOf, roomTarget, rotateY, moveDirVector, expansionWitnessRoom,
      roomSpacing, round_eq]
  have h := expansion_generates_at_offsets expansionWitnessState ⟨1, 0, 0⟩ MoveDir.forward 1 0 0 []
    expansionWitnessRoom 1 hscan (by norm_num) (by simp [expansionWitnessState])
    (by rw [hhk]; rfl) (by rw [hrk]; rfl)
    (by norm_num [distSq, roomTarget, rotateY, moveDirVector, expansionWitnessRoom,
      roomSpacing])
  exact ⟨hscan, by simpa [expansionWitnessState] using h.1⟩

/-!  ## Room anchor counting and distinctness (claim C9) -/

/-- The wall tag together with the rounded (integer) anchor position: two
anchors "share the same rounded position on the same wall" exactly when
they have the same `anchorKey`. -/
def anchorKey (a : Placement) : Option String × ℤ × ℤ × ℤ :=
  (a.wall, round a.position.x, round a.position.y, round a.position.z)

theorem wallTileCount_eight : wallTileCount 8 = 3 := by
  unfold wallTileCount anchorPitch
  rw [show ⌊(8:ℚ) / (2 + 1/2)⌋ = (3:ℤ) by norm_num]
  rfl

theorem wallTileCount_twenty : wallTileCount 20 = 8 := by
  unfold wallTileCount anchorPitch
  rw [show ⌊(20:ℚ) / (2 + 1/2)⌋ = (8:ℤ) by norm_num]
  rfl

theorem hall_alcove_count : (⌊(20:ℚ) / 5⌋ - 1).toNat = 3 := by
  rw [show ⌊(20:ℚ) / 5⌋ = (4:ℤ) by norm_num]
  rfl

theorem hall_split (style : String) :
    (generateRoom 0 "hall" style none).artworkPlacements =
      backWallTiles ⟨8, 5, 20⟩ ++ leftWallTiles ⟨8, 5, 20⟩ ++ rightWallTiles ⟨8, 5, 20⟩ ++
        ((List.range ((⌊(20:ℚ) / 5⌋ - 1).toNat)).map (hallAlcove ⟨8, 5, 20⟩ true) ++
         (List.range ((⌊(20:ℚ) / 5⌋ - 1).toNat)).map (hallAlcove ⟨8, 5, 20⟩ false)) := rfl

theorem hall_anchor_keys (style : String) :
    ((generateRoom 0 "hall" style none).artworkPlacements.map anchorKey) =
    [(some "back", -2, 2, -10), (some "back", 0, 2, -10), (some "back", 3, 2, -10),
     (some "left", -4, 2, -9), (some "left", -4, 2, -6), (some "left", -4, 2, -4),
     (some "left", -4, 2, -1), (some "left", -4, 2, 1), (some "left", -4, 2, 4),
     (some "left", -4, 2, 6), (some "left", -4, 2, 9),
     (some "right", 4, 2, -9), (some "right", 4, 2, -6), (some "right", 4, 2, -4),
     (some "right", 4, 2, -1), (some "right", 4, 2, 1), (some "right", 4, 2, 4),
     (some "right", 4, 2, 6), (some "right", 4, 2, 9),
     (none, -5, 3, -5), (none, -5, 3, 0), (none, -5, 3, 5),
     (none, 5, 3, -5), (none, 5, 3, 0), (none, 5, 3, 5)] := by
  rw [hall_split, hall_alcove_count]
  norm_num [backWallTiles, leftWallTiles, rightWallTiles, hallAlcove,
    wallTileCount_eight, wallTileCount_twenty, tileStart, anchorPitch, anchorKey,
    List.range_succ, round_eq]


theorem wallTileCount_twelve : wallTileCount 12 = 4 := by
  unfold wallTileCount anchorPitch
  rw [show ⌊(12:ℚ) / (2 + 1/2)⌋ = (4:ℤ) by norm_num]
  rfl

theorem basic_split (style : String) :
    (generateRoom 0 "basic" style none).artworkPlacements =
      backWallTiles ⟨10, 5, 10⟩ ++ leftWallTiles ⟨10, 5, 10⟩ ++
        rightWallTiles ⟨10, 5, 10⟩ ++ ([] : List Placement) := rfl

theorem large_split (style : String) :
    (generateRoom 0 "large" style none).artworkPlacements =
      backWallTiles ⟨20, 8, 20⟩ ++ leftWallTiles ⟨20, 8, 20⟩ ++
        rightWallTiles ⟨20, 8, 20⟩ ++ ([] : List Placement) := rfl

theorem corner_split (style : String) :
    (generateRoom 0 "corner" style none).artworkPlacements =
      backWallTiles ⟨12, 5, 12⟩ ++ leftWallTiles ⟨12, 5, 12⟩ ++
        rightWallTiles ⟨12, 5, 12⟩ ++ ([] : List Placement) := rfl

theorem large_custom_eq_default (style : String) :
    (generateRoom 0 "large" style (some ⟨20, 8, 20⟩)).artworkPlacements =
      (generateRoom 0 "large" style none).artworkPlacements := rfl

theorem basic_anchor_keys (style : String) :
    ((generateRoom 0 "basic" style none).artworkPlacements.map anchorKey) =
    [(some "back", -4, 2, -5), (some "back", -1, 2, -5), (some "back", 1, 2, -5),
     (some "back", 4, 2, -5),
     (some "left", -5, 2, -4), (some "left", -5, 2, -1), (some "left", -5, 2, 1),
     (some "left", -5, 2, 4),
     (some "right", 5, 2, -4), (some "right", 5, 2, -1), (some "right", 5, 2, 1),
     (some "right", 5, 2, 4)] := by
  rw [basic_split]
  norm_num [backWallTiles, leftWallTiles, rightWallTiles, wallTileCount_ten,
    tileStart, anchorPitch, anchorKey, List.range_succ, round_eq]

theorem large_anchor_keys (style : String) :
    ((generateRoom 0 "large" style none).artworkPlacements.map anchorKey) =
    [(some "back", -9, 2, -10), (some "back", -6, 2, -10), (some "back", -4, 2, -10),
     (some "back", -1, 2, -10), (some "back", 1, 2, -10), (some "back", 4, 2, -10),
     (some "back", 6, 2, -10), (some "back", 9, 2, -10),
     (some "left", -10, 2, -9), (some "left", -10, 2, -6), (some "left", -10, 2, -4),
     (some "left", -10, 2, -1), (some "left", -10, 2, 1), (some "left", -10, 2, 4),
     (some "left", -10, 2, 6), (some "left", -10, 2, 9),
     (some "right", 10, 2, -9), (some "right", 10, 2, -6), (some "right", 10, 2, -4),
     (some "right", 10, 2, -1), (some "right", 10, 2, 1), (some "right", 10, 2, 4),
     (some "right", 10, 2, 6), (some "right", 10, 2, 9)] := by
  rw [large_split]
  norm_num [backWallTiles, leftWallTiles, rightWallTiles, wallTileCount_twenty,
    tileStart, anchorPitch, anchorKey, List.range_succ, round_eq]

theorem corner_anchor_keys (style : String) :
    ((generateRoom 0 "corner" style none).artworkPlacements.map anchorKey) =
    [(some "back", -4, 2, -6), (some "back", -1, 2, -6), (some "back", 1, 2, -6),
     (some "back", 4, 2, -6),
     (some "left", -6, 2, -4), (some "left", -6, 2, -1), (some "left", -6, 2, 1),
     (some "left", -6, 2, 4),
     (some "right", 6, 2, -4), (some "right", 6, 2, -1), (some "right", 6, 2, 1),
     (some "right", 6, 2, 4)] := by
  rw [corner_split]
  norm_num [backWallTiles, leftWallTiles, rightWallTiles, wallTileCount_twelve,
    tileStart, anchorPitch, anchorKey, List.range_succ, round_eq]


/-- Stated from the spec's words for the claim's counting rule (spec §4.2,
"for each full wall, tile anchors ..."): the full walls are back, left and
right for the basic, large and hall templates (the front wall is split by
the door gap), but only back and right for the corner template, whose left
and front walls the spec declares partial.  The per-wall tiling count tiles
the wall length (width for the back wall, depth for the side walls).  This
definition follows the spec, not the source, and is compared against the
source-derived anchor list. -/
def specFullWallAnchorCount (template : String) (size : Size3) : ℕ :=
  if template = "corner" then wallTileCount size.width + wallTileCount size.depth
  else wallTileCount size.width + 2 * wallTileCount size.depth

/-- C9 counterexample: the corner room at its default 12×5×12 size has 12
anchors — the source tiles its back, left and right walls alike — whereas
the claim's sum over full walls (back and right only for the corner
template, plus zero alcoves) predicts 8. -/
theorem corner_tiles_partial_wall_counterexample :
    (generateRoom 0 "corner" "futuristic" none).artworkPlacements.length = 12 ∧
    specFullWallAnchorCount "corner"
        (generateRoom 0 "corner" "futuristic" none).shell.size
      + (generateRoom 0 "corner" "futuristic" none).shell.alcoves.length = 8 ∧
    (12 : ℕ) ≠ 8 := by
  refine ⟨?_, ?_, by decide⟩
  · have h := congrArg List.length (corner_anchor_keys "futuristic")
    rw [List.length_map] at h
    exact h.trans rfl
  · show specFullWallAnchorCount "corner" ⟨12, 5, 12⟩ + ([] : List Placement).length = 8
    simp [specFullWallAnchorCount, wallTileCount_twelve]

/-- C9 amended: for every room the engine generates (the four templates at
the sizes the engine uses), the number of artwork anchors equals the tiling
count of the back wall (from the room width) plus the tiling counts of the
left and right walls (from the room depth — including the corner template's
partial left wall, which the tiler treats like a full wall) plus the number
of alcoves; the count is ≥ 0; and no two anchors of the same room share the
same rounded position on the same wall. -/
theorem room_anchor_count_and_distinct_rounded_positions (template style : String) (size : Option Size3)
    (htemp : template = "basic" ∨ template = "large" ∨ template = "hall" ∨
      template = "corner")
    (hsize : size = none ∨ (template = "large" ∧ size = some ⟨20, 8, 20⟩)) :
    (generateRoom 0 template style size).artworkPlacements.length =
      wallTileCount (generateRoom 0 template style size).shell.size.width +
      2 * wallTileCount (generateRoom 0 template style size).shell.size.depth +
      (generateRoom 0 template style size).shell.alcoves.length ∧
    0 ≤ (generateRoom 0 template style size).artworkPlacements.length ∧
    ((generateRoom 0 template style size).artworkPlacements.map anchorKey).Nodup := by
  have hlen : ∀ t s (sz : Option Size3) (L : List (Option String × ℤ × ℤ × ℤ)),
      ((generateRoom 0 t s sz).artworkPlacements.map anchorKey) = L →
      (generateRoom 0 t s sz).artworkPlacements.length = L.length := by
    intro t s sz L hL
    have h := congrArg List.length hL
    rwa [List.length_map] at h
  rcases hsize with rfl | ⟨rfl, rfl⟩
  · rcases htemp with rfl | rfl | rfl | rfl
    · refine ⟨?_, Nat.zero_le _, ?_⟩
      · rw [hlen _ _ _ _ (basic_anchor_keys style)]
        show 12 = wallTileCount 10 + 2 * wallTileCount 10 + ([] : List Placement).length
        simp [wallTileCount_ten]
      · rw [basic_anchor_keys]
        decide
    · refine ⟨?_, Nat.zero_le _, ?_⟩
      · rw [hlen _ _ _ _ (large_anchor_keys style)]
        show 24 = wallTileCount 20 + 2 * wallTileCount 20 + ([] : List Placement).length
        simp [wallTileCount_twenty]
      · rw [large_anchor_keys]
        decide
    · refine ⟨?_, Nat.zero_le _, ?_⟩
      · rw [hlen _ _ _ _ (hall_anchor_keys style)]
        show 25 = wallTileCount 8 + 2 * wallTileCount 20 +
          ((List.range ((⌊(20:ℚ) / 5⌋ - 1).toNat)).map (hallAlcove ⟨8, 5, 20⟩ true) ++
           (List.range ((⌊(20:ℚ) / 5⌋ - 1).toNat)).map (hallAlcove ⟨8, 5, 20⟩ false)).length
        rw [hall_alcove_count]
        simp [wallTileCount_eight, wallTileCount_twenty]
      · rw [hall_anchor_keys]
        decide
    · refine ⟨?_, Nat.zero_le _, ?_⟩
      · rw [hlen _ _ _ _ (corner_anchor_keys style)]
        show 12 = wallTileCount 12 + 2 * wallTileCount 12 + ([] : List Placement).length
        simp [wallTileCount_twelve]
      · rw [corner_anchor_keys]
        decide
  · have hkeys : ((generateRoom 0 "large" style (some ⟨20, 8, 20⟩)).artworkPlacements.map
        anchorKey) = ((generateRoom 0 "large" style none).artworkPlacements.map anchorKey) := by
      rw [large_custom_eq_default]
    refine ⟨?_, Nat.zero_le _, ?_⟩
    · rw [hlen _ _ _ _ (hkeys.trans (large_anchor_keys style))]
      show 24 = wallTileCount 20 + 2 * wallTileCount 20 + ([] : List Placement).length
      simp [wallTileCount_twenty]
    · rw [hkeys.trans (large_anchor_keys style)]
      decide

/-- C9 amended witness: the hall room (25 anchors: 3 + 8 + 8 tiles plus 6
alcoves) satisfies the counting rule and anchor distinctness. -/
theorem room_anchor_count_and_distinct_rounded_positions_witness :
    (generateRoom 0 "hall" "classical" none).artworkPlacements.length =
      wallTileCount (generateRoom 0 "hall" "classical" none).shell.size.width +
      2 * wallTileCount (generateRoom 0 "hall" "classical" none).shell.size.depth +
      (generateRoom 0 "hall" "classical" none).shell.alcoves.length ∧
    ((generateRoom 0 "hall" "classical" none).artworkPlacements.map anchorKey).Nodup :=
  ⟨(room_anchor_count_and_distinct_rounded_positions "hall" "classical" none (Or.inr (Or.inr (Or.inl rfl))) (Or.inl rfl)).1,
   (room_anchor_count_and_distinct_rounded_positions "hall" "classical" none (Or.inr (Or.inr (Or.inl rfl))) (Or.inl rfl)).2.2⟩

/-!  ## Initial layout (claim C4) -/

theorem surroundDirections_enum :
    surroundDirections.enum = [(0, ((0:ℚ), (1:ℚ))), (1, (1, 0)), (2, (0, -1)), (3, (-1, 0))] := rfl

theorem region_at_north : getRegionForPosition ⟨0, 0, 15⟩ = classicalGallery := by
  norm_num [getRegionForPosition, regionScan, distSq, classicalGallery,
    futuristicExhibition, abstractCollection]

/-- C4: for every random template choice and every image-source response,
generating the initial layout from the empty state produces exactly one
large entrance room at the world origin (the head of the rooms list), four
hallways and four further rooms (5 rooms in total), registers exactly 9
occupancy-grid entries whose rounded cell keys are pairwise distinct —
the entrance cell, the four half-spacing hallway cells (7.5 rounds to 8,
−7.5 rounds to −7, as Math.round rounds half-values up) and the four
full-spacing room cells — and leaves the entrance room marked current. -/
theorem initial_layout_contents (pick : ℕ → ℕ) (images : ℕ → List Image) (eimgs : List Image) :
    (generateInitialLayout pick images eimgs).rooms.length = 5 ∧
    (generateInitialLayout pick images eimgs).hallways.length = 4 ∧
    ((generateInitialLayout pick images eimgs).rooms.head?.map (fun r => r.template))
      = some "large" ∧
    ((generateInitialLayout pick images eimgs).rooms.head?.map (fun r => r.position))
      = some ⟨0, 0, 0⟩ ∧
    (generateInitialLayout pick images eimgs).grid.length = 9 ∧
    ((generateInitialLayout pick images eimgs).grid.map Prod.fst) =
      [((0:ℤ), (0:ℤ), (0:ℤ)), (0, 0, 8), (0, 0, 15), (8, 0, 0), (15, 0, 0),
       (0, 0, -7), (0, 0, -15), (-7, 0, 0), (-15, 0, 0)] ∧
    ((generateInitialLayout pick images eimgs).grid.map Prod.fst).Nodup ∧
    (generateInitialLayout pick images eimgs).currentRoom
      = (generateInitialLayout pick images eimgs).rooms.head? := by
  have hkeys : ((generateInitialLayout pick images eimgs).grid.map Prod.fst) =
      [((0:ℤ), (0:ℤ), (0:ℤ)), (0, 0, 8), (0, 0, 15), (8, 0, 0), (15, 0, 0),
       (0, 0, -7), (0, 0, -15), (-7, 0, 0), (-15, 0, 0)] := by
    norm_num [generateInitialLayout, generateSurroundingRooms, surroundDirections_enum,
      List.foldl, surroundStep, placeArtworksInRoom, initialState, gridSet, gridLookup,
      gridKeyOf, roomSpacing, getRegionForPosition, regionScan, distSq, classicalGallery,
      futuristicExhibition, abstractCollection, round_eq]
  have hglen : (generateInitialLayout pick images eimgs).grid.length = 9 := by
    have h := congrArg List.length hkeys
    rwa [List.length_map] at h
  refine ⟨?_, ?_, ?_, ?_, hglen, hkeys, by rw [hkeys]; decide, ?_⟩ <;>
  norm_num [generateInitialLayout, generateSurroundingRooms, surroundDirections_enum,
    List.foldl, surroundStep, placeArtworksInRoom, initialState, gridSet, gridLookup,
    gridKeyOf, roomSpacing, getRegionForPosition, regionScan, distSq, classicalGallery,
    futuristicExhibition, abstractCollection, round_eq, generateRoom]

end Museum
